import Mathlib

/-!
# Formal model of the VoiceGenie chat component

A shallow embedding of `src/App.tsx`: the data model (`Message`, the
`useState` cells of the component), the completion client
(`generateAIResponse`), the submission handler (`handleSubmit`) and the
speech controller (`speakText`).  Effects are made explicit: the network is
an oracle value (`NetOutcome`), timers set via `setTimeout` are collected in
a list of `Scheduled` actions, calls on the speech-synthesis capability are
collected in a list of `SpeechAction`, and the request a completion issues
is returned alongside its result (`none` when no fetch was attempted).
-/

namespace VoiceGenie

/-- Sender role of a conversation turn (the `type` field of the `Message`
interface, App.tsx line 7). -/
inductive Role where
  | user
  | ai
deriving DecidableEq

/-- One conversation turn (the `Message` interface, App.tsx lines 5 to 10).
Creation times are modelled as natural numbers, the value of `Date.now()`. -/
structure Message where
  id : String
  type : Role
  content : String
  timestamp : Nat
deriving DecidableEq

/-- The `useState` cells of the component (App.tsx lines 14 to 19). -/
structure SessionState where
  input : String
  messages : List Message
  isLoading : Bool
  isSpeaking : Bool
  speechEnabled : Bool
  error : String
deriving DecidableEq

/-- Model of JavaScript `String.prototype.trim`: strips whitespace from both
ends of the string. -/
def jsTrim (s : String) : String :=
  String.mk (((s.data.dropWhile Char.isWhitespace).reverse.dropWhile Char.isWhitespace).reverse)

/-- JavaScript truthiness of `!GROQ_API_KEY` (App.tsx line 70): the key is
treated as absent when the environment variable is undefined or the empty
string. -/
def keyMissing (apiKey : Option String) : Bool :=
  match apiKey with
  | none => true
  | some s => s == ""

/-- JavaScript `a || b` on `errorData.message` (App.tsx line 97): the field
when it is present and truthy (non-empty), otherwise the fallback
`JSON.stringify(errorData)`. -/
def jsOrElse (a : Option String) (fallback : String) : String :=
  match a with
  | none => fallback
  | some s => if s == "" then fallback else s

/-- Outcome of the network round trip, supplied to the model as an oracle
for `fetch` and the subsequent response parsing. -/
inductive NetOutcome where
  /-- `fetch` itself, or a `.json()` call, rejects with an Error whose
  `message` is `msg`. -/
  | netError (msg : String)
  /-- `response.ok` is false; the parsed error body has the optional
  `message` field `errMessage`, and `errPayload` is its JSON serialization
  (App.tsx lines 93 to 98). -/
  | httpError (status : Nat) (statusText : String) (errMessage : Option String) (errPayload : String)
  /-- `response.ok` holds and `choices[0].message.content` is `content`. -/
  | success (content : String)
  /-- `response.ok` holds but extracting `choices[0].message.content` throws
  an Error whose `message` is `msg`. -/
  | parseFailure (msg : String)
deriving DecidableEq

/-- The HTTP request issued by `generateAIResponse`: url, authorization
header and the JSON body fields of the `fetch` call (App.tsx lines 77 to
90).  `messages` is the list of (role, content) turns sent. -/
structure ChatRequest where
  url : String
  authorization : String
  model : String
  messages : List (String × String)
  max_tokens : Nat
  temperature : ℚ
  stream : Bool
deriving DecidableEq

/-- The concrete request built by `generateAIResponse` (App.tsx lines 77 to
90): fixed endpoint, bearer token from the key, fixed model, the user input
as the single conversational turn, fixed limits, non-streaming. -/
def mkGroqRequest (key userInput : String) : ChatRequest :=
  { url := "https://api.groq.com/openai/v1/chat/completions"
    authorization := "Bearer " ++ key
    model := "gemma2-9b-it"
    messages := [("user", userInput)]
    max_tokens := 500
    temperature := 7/10
    stream := false }

/-- Fixed apology returned when the API key is absent (App.tsx line 72). -/
def noKeyApology : String :=
  "I\x27m sorry, I cannot connect to the AI service. Please ensure the API key is configured correctly."

/-- The user-facing apology built in the catch handler of
`generateAIResponse` (App.tsx line 110), embedding the message of the
caught error. -/
def fetchApology (errMsg : String) : String :=
  "I apologize, but I encountered an issue fetching a response. Please try again. (" ++ errMsg ++ ")"

/-- The message of the Error thrown on a non-success HTTP status (App.tsx
line 97), combining status, status text and the upstream error payload. -/
def groqErrorMessage (status : Nat) (statusText payload : String) : String :=
  "Groq API error: " ++ toString status ++ " " ++ statusText ++ " - " ++ payload

/-- The body of the try block of `generateAIResponse` (App.tsx lines 75 to
104), given the network oracle.  `Except.error` carries the `message` of a
thrown or rejected Error. -/
def tryFetchBody (net : NetOutcome) : Except String String :=
  match net with
  | .netError msg => .error msg
  | .httpError status statusText errMessage errPayload =>
      .error (groqErrorMessage status statusText (jsOrElse errMessage errPayload))
  | .success content => .ok content
  | .parseFailure msg => .error msg

/-- `generateAIResponse` (App.tsx lines 64 to 112).  Returns the promise
result (`Except.error` would be a rejected promise) together with the
request issued to the network, `none` when no fetch was attempted.  The
catch handler converts every exception of the try body into a resolved
apology string. -/
def generateAIResponse (apiKey : Option String) (net : NetOutcome) (userInput : String) :
    Except String String × Option ChatRequest :=
  if keyMissing apiKey then (.ok noKeyApology, none)
  else
    let req := mkGroqRequest (apiKey.getD "") userInput
    match tryFetchBody net with
    | .ok content => (.ok content, some req)
    | .error msg => (.ok (fetchApology msg), some req)

/-- The string a completion resolves with (total, since the client never
rejects): the fixed apology when the key is absent, the reply on success,
and the catch-handler apology when the try body throws. -/
def resolvedReply (apiKey : Option String) (net : NetOutcome) : String :=
  if keyMissing apiKey then noKeyApology
  else
    match tryFetchBody net with
    | .ok content => content
    | .error msg => fetchApology msg

/-- Deferred actions registered via `setTimeout` during a submission; the
delay is in milliseconds, as written in the source. -/
inductive Scheduled where
  /-- `setTimeout(() => setError(''), delayMs)`. -/
  | clearError (delayMs : Nat)
  /-- `setTimeout(() => speakText(text), delayMs)`. -/
  | narrate (delayMs : Nat) (text : String)
deriving DecidableEq

/-- Validation message for an empty submission (App.tsx line 120). -/
def emptyInputError : String := "Please enter a question or command"

/-- Banner text set by the defensive catch branch of `handleSubmit`
(App.tsx line 161). -/
def hardFailureError : String := "Failed to get response. Please try again."

/-- Synchronous phase of `handleSubmit` (App.tsx lines 115 to 137):
validation, the user-message append, clearing the input and the error,
entering the loading state.  `now` is the value of `Date.now()`.  Returns
the new state, the timers set, and the trimmed prompt handed to the
completion client (`none` when validation aborts the submission). -/
def submitSync (now : Nat) (s : SessionState) : SessionState × List Scheduled × Option String :=
  if jsTrim s.input = "" then
    ({ s with error := emptyInputError }, [.clearError 3000], none)
  else
    let userMessage : Message :=
      { id := toString now, type := .user, content := jsTrim s.input, timestamp := now }
    ({ s with
        messages := s.messages ++ [userMessage]
        input := ""
        isLoading := true
        error := "" },
      [], some (jsTrim s.input))

/-- Resolution phase of `handleSubmit` (App.tsx lines 139 to 165): the
try/catch/finally around the completion promise, applied to the promise
result.  `now2` is the value of `Date.now()` at resolution time.  On
resolution it appends the ai message and, when speech is enabled, schedules
narration after 500 ms; on rejection it sets the transient banner together
with its 5000 ms clearing timer; the finally clause resets `isLoading` on
both paths. -/
def resolveReply (now2 : Nat) (result : Except String String) (s : SessionState) :
    SessionState × List Scheduled :=
  match result with
  | .ok aiResponse =>
      let aiMessage : Message :=
        { id := toString (now2 + 1), type := .ai, content := aiResponse, timestamp := now2 }
      ({ s with messages := s.messages ++ [aiMessage], isLoading := false },
        if s.speechEnabled then [Scheduled.narrate 500 aiResponse] else [])
  | .error _ =>
      ({ s with error := hardFailureError, isLoading := false }, [.clearError 5000])

/-- One full submission round trip (`handleSubmit`, App.tsx lines 115 to
166): the synchronous phase followed by the completion call and its
resolution.  Returns the final state, the timers set during the round trip,
and the network request issued (`none` when no fetch was attempted). -/
def handleSubmit (now now2 : Nat) (apiKey : Option String) (net : NetOutcome)
    (s : SessionState) : SessionState × List Scheduled × Option ChatRequest :=
  match submitSync now s with
  | (s1, sch, none) => (s1, sch, none)
  | (s1, sch, some prompt) =>
      let (result, req) := generateAIResponse apiKey net prompt
      let (s2, sch2) := resolveReply now2 result s1
      (s2, sch ++ sch2, req)

/-- An utterance handed to the speech-synthesis engine, with the parameters
set at App.tsx lines 44 to 46. -/
structure Utterance where
  text : String
  rate : ℚ
  pitch : ℚ
  volume : ℚ
deriving DecidableEq

/-- Calls the component makes on the platform speech-synthesis
capability. -/
inductive SpeechAction where
  /-- `window.speechSynthesis.cancel()`. -/
  | cancel
  /-- `window.speechSynthesis.speak(u)`. -/
  | speak (u : Utterance)
deriving DecidableEq

/-- `speakText` (App.tsx lines 35 to 55): the sequence of calls issued to
the platform, in order.  Empty (a no-op) when speech is disabled or the
platform lacks the capability; otherwise a cancellation of any in-flight
utterance followed by exactly one new utterance with rate 0.9, pitch 1 and
volume 0.8. -/
def speakText (speechEnabled hasSpeechSynthesis : Bool) (text : String) : List SpeechAction :=
  if !speechEnabled || !hasSpeechSynthesis then []
  else
    [SpeechAction.cancel,
      SpeechAction.speak { text := text, rate := 9/10, pitch := 1, volume := 8/10 }]

/-- The state-mutating operations of the component: a full submission round
trip, typing into the input field (the `onChange` handler), the speech
toggle, the stop-speaking button, a transient-error timer firing, and the
platform speech start and end notifications. -/
inductive ComponentOp where
  | submit (now now2 : Nat) (apiKey : Option String) (net : NetOutcome)
  | typeInput (t : String)
  | toggleSpeech
  | stopSpeaking
  | timerClearError
  | speechStarted
  | speechStopped

/-- Effect of each component operation on the session state. -/
def applyOp : ComponentOp → SessionState → SessionState
  | .submit now now2 apiKey net, s => (handleSubmit now now2 apiKey net s).1
  | .typeInput t, s => { s with input := t }
  | .toggleSpeech, s => { s with speechEnabled := !s.speechEnabled }
  | .stopSpeaking, s => { s with isSpeaking := false }
  | .timerClearError, s => { s with error := "" }
  | .speechStarted, s => { s with isSpeaking := true }
  | .speechStopped, s => { s with isSpeaking := false }

/-- A concrete session state used to instantiate the theorems. -/
def sampleState : SessionState :=
  { input := "  What is a black hole?  "
    messages := []
    isLoading := false
    isSpeaking := false
    speechEnabled := true
    error := "" }

/-! ## Helper lemmas -/

/-- The completion client always resolves, with `resolvedReply`. -/
theorem gen_fst_eq (apiKey : Option String) (net : NetOutcome) (userInput : String) :
    (generateAIResponse apiKey net userInput).1 = Except.ok (resolvedReply apiKey net) := by
  unfold generateAIResponse resolvedReply
  cases h : keyMissing apiKey
  · simp
    cases htb : tryFetchBody net <;> simp
  · simp

/-- The request component of a full submission. -/
theorem handleSubmit_req (now now2 : Nat) (apiKey : Option String) (net : NetOutcome)
    (s : SessionState) :
    (handleSubmit now now2 apiKey net s).2.2
      = if jsTrim s.input = "" then none
        else (generateAIResponse apiKey net (jsTrim s.input)).2 := by
  by_cases h : jsTrim s.input = "" <;>
    simp [handleSubmit, submitSync, h]

/-- Explicit form of a submission whose input is empty after trimming. -/
theorem handleSubmit_empty (now now2 : Nat) (apiKey : Option String) (net : NetOutcome)
    (s : SessionState) (h : jsTrim s.input = "") :
    handleSubmit now now2 apiKey net s
      = ({ s with error := emptyInputError }, [Scheduled.clearError 3000], none) := by
  simp [handleSubmit, submitSync, h]

/-- Explicit form of a submission whose input is non-empty after trimming. -/
theorem handleSubmit_nonempty (now now2 : Nat) (apiKey : Option String) (net : NetOutcome)
    (s : SessionState) (h : ¬ jsTrim s.input = "") :
    handleSubmit now now2 apiKey net s
      = ({ s with
            messages := s.messages
              ++ [{ id := toString now, type := Role.user,
                    content := jsTrim s.input, timestamp := now },
                  { id := toString (now2 + 1), type := Role.ai,
                    content := resolvedReply apiKey net, timestamp := now2 }]
            input := ""
            isLoading := false
            error := "" },
          (if s.speechEnabled then [Scheduled.narrate 500 (resolvedReply apiKey net)] else []),
          (generateAIResponse apiKey net (jsTrim s.input)).2) := by
  simp [handleSubmit, submitSync, h, gen_fst_eq, resolveReply]

/-! ## Claims -/

/-- C1: for every input that is non-empty after trimming, a submission
round trip appends exactly two messages to the conversation: first exactly
one user message, appended by the synchronous phase before the completion
resolves, with the trimmed input as content; then exactly one ai message
whose content is the string the completion client resolved with.  The
conversation grows by exactly two. -/
theorem submit_appends_user_then_ai (now now2 : Nat) (apiKey : Option String)
    (net : NetOutcome) (s : SessionState) (h : ¬ jsTrim s.input = "") :
    ∃ reply,
      (generateAIResponse apiKey net (jsTrim s.input)).1 = Except.ok reply ∧
      (submitSync now s).1.messages
        = s.messages
          ++ [{ id := toString now, type := Role.user,
                content := jsTrim s.input, timestamp := now }] ∧
      (handleSubmit now now2 apiKey net s).1.messages
        = s.messages
          ++ [{ id := toString now, type := Role.user,
                content := jsTrim s.input, timestamp := now },
              { id := toString (now2 + 1), type := Role.ai,
                content := reply, timestamp := now2 }] ∧
      (handleSubmit now now2 apiKey net s).1.messages.length
        = s.messages.length + 2 := by
  refine ⟨resolvedReply apiKey net, gen_fst_eq apiKey net (jsTrim s.input), ?_, ?_, ?_⟩
  · simp [submitSync, h]
  · rw [handleSubmit_nonempty now now2 apiKey net s h]
  · rw [handleSubmit_nonempty now now2 apiKey net s h]
    simp

/-- Witness for C1: a concrete submission of a non-empty input. -/
theorem submit_appends_user_then_ai_witness :
    ∃ reply,
      (generateAIResponse (some "key") (NetOutcome.success "Hi there!")
          (jsTrim sampleState.input)).1 = Except.ok reply ∧
      (submitSync 100 sampleState).1.messages
        = sampleState.messages
          ++ [{ id := toString 100, type := Role.user,
                content := jsTrim sampleState.input, timestamp := 100 }] ∧
      (handleSubmit 100 200 (some "key") (NetOutcome.success "Hi there!") sampleState).1.messages
        = sampleState.messages
          ++ [{ id := toString 100, type := Role.user,
                content := jsTrim sampleState.input, timestamp := 100 },
              { id := toString (200 + 1), type := Role.ai,
                content := reply, timestamp := 200 }] ∧
      (handleSubmit 100 200 (some "key") (NetOutcome.success "Hi there!") sampleState).1.messages.length
        = sampleState.messages.length + 2 :=
  submit_appends_user_then_ai 100 200 (some "key") (NetOutcome.success "Hi there!")
    sampleState (by decide)

/-- C2: submitting an input that is empty after trimming leaves the
conversation and the pending input unchanged, invokes no completion (no
request is issued), and only sets the transient validation error together
with its 3000 ms clearing timer; the timer firing then clears the error. -/
theorem empty_submit_only_sets_error (now now2 : Nat) (apiKey : Option String)
    (net : NetOutcome) (s : SessionState) (h : jsTrim s.input = "") :
    handleSubmit now now2 apiKey net s
      = ({ s with error := emptyInputError }, [Scheduled.clearError 3000], none) ∧
    applyOp ComponentOp.timerClearError { s with error := emptyInputError }
      = { s with error := "" } := by
  exact ⟨handleSubmit_empty now now2 apiKey net s h, rfl⟩

/-- Witness for C2: submitting a whitespace-only input. -/
theorem empty_submit_only_sets_error_witness :
    handleSubmit 7 9 (some "key") (NetOutcome.success "unused") { sampleState with input := "   " }
      = ({ { sampleState with input := "   " } with error := emptyInputError },
          [Scheduled.clearError 3000], none) ∧
    applyOp ComponentOp.timerClearError
        { { sampleState with input := "   " } with error := emptyInputError }
      = { { sampleState with input := "   " } with error := "" } :=
  empty_submit_only_sets_error 7 9 (some "key") (NetOutcome.success "unused")
    { sampleState with input := "   " } (by decide)

/-- C3: the completion client never rejects: for every key, network outcome
and input it resolves with a string, and whenever the try body throws, the
resolved string is the apology embedding the message of the thrown error. -/
theorem generateAIResponse_never_raises :
    (∀ (apiKey : Option String) (net : NetOutcome) (userInput : String),
      ∃ r, (generateAIResponse apiKey net userInput).1 = Except.ok r) ∧
    (∀ (apiKey : Option String) (net : NetOutcome) (userInput : String) (msg : String),
      keyMissing apiKey = false →
      tryFetchBody net = Except.error msg →
      (generateAIResponse apiKey net userInput).1 = Except.ok (fetchApology msg)) := by
  constructor
  · intro apiKey net userInput
    exact ⟨resolvedReply apiKey net, gen_fst_eq apiKey net userInput⟩
  · intro apiKey net userInput msg hkey htb
    simp [generateAIResponse, hkey, htb]

/-- Witness for C3: a transport failure resolves with the apology string. -/
theorem generateAIResponse_never_raises_witness :
    (generateAIResponse (some "key") (NetOutcome.netError "network down") "hello").1
      = Except.ok (fetchApology "network down") :=
  generateAIResponse_never_raises.2 (some "key") (NetOutcome.netError "network down")
    "hello" "network down" (by decide) rfl

/-- C4 counterexample: with a key configured and the endpoint answering a
non-success status, the completion client resolves with an apology string;
no failure reaches the submission handler, contrary to the claim that the
upstream rejection is surfaced to the caller as a failure distinct from
the soft-failure paths that resolve with a displayable string. -/
theorem httpError_not_surfaced_as_failure :
    (generateAIResponse (some "key")
        (NetOutcome.httpError 500 "Internal Server Error" (some "boom") "payload") "hi").1
      = Except.ok (fetchApology (groqErrorMessage 500 "Internal Server Error" "boom")) := by
  rfl

/-- C4 amended: on a non-success HTTP status the client builds the
descriptive error message combining the status and the upstream-provided
error payload and throws it inside the try body, but its own catch handler
converts it into the apology string embedding that message, so the caller
receives a resolved string, never a failure. -/
theorem httpError_caught_internally (status : Nat) (statusText : String)
    (errMessage : Option String) (errPayload : String) (apiKey : Option String)
    (userInput : String) (hkey : keyMissing apiKey = false) :
    tryFetchBody (NetOutcome.httpError status statusText errMessage errPayload)
      = Except.error (groqErrorMessage status statusText (jsOrElse errMessage errPayload)) ∧
    (generateAIResponse apiKey
        (NetOutcome.httpError status statusText errMessage errPayload) userInput).1
      = Except.ok (fetchApology (groqErrorMessage status statusText
          (jsOrElse errMessage errPayload))) := by
  constructor
  · rfl
  · simp [generateAIResponse, hkey, tryFetchBody]

/-- Witness for the amended C4 at a concrete status and payload. -/
theorem httpError_caught_internally_witness :
    tryFetchBody (NetOutcome.httpError 429 "Too Many Requests" none "limit")
      = Except.error (groqErrorMessage 429 "Too Many Requests" (jsOrElse none "limit")) ∧
    (generateAIResponse (some "key")
        (NetOutcome.httpError 429 "Too Many Requests" none "limit") "hi").1
      = Except.ok (fetchApology (groqErrorMessage 429 "Too Many Requests"
          (jsOrElse none "limit"))) :=
  httpError_caught_internally 429 "Too Many Requests" none "limit" (some "key") "hi"
    (by decide)

/-- C5: with the API key absent the completion client returns the fixed
apology verbatim without issuing any network request, and a submission
appends that apology as the ai message like any successful reply. -/
theorem missing_key_soft_failure (now now2 : Nat) (apiKey : Option String)
    (net : NetOutcome) (s : SessionState) (hkey : keyMissing apiKey = true)
    (h : ¬ jsTrim s.input = "") :
    generateAIResponse apiKey net (jsTrim s.input) = (Except.ok noKeyApology, none) ∧
    (handleSubmit now now2 apiKey net s).2.2 = none ∧
    (handleSubmit now now2 apiKey net s).1.messages
      = s.messages
        ++ [{ id := toString now, type := Role.user,
              content := jsTrim s.input, timestamp := now },
            { id := toString (now2 + 1), type := Role.ai,
              content := noKeyApology, timestamp := now2 }] := by
  have hgen : generateAIResponse apiKey net (jsTrim s.input) = (Except.ok noKeyApology, none) := by
    simp [generateAIResponse, hkey]
  refine ⟨hgen, ?_, ?_⟩
  · rw [handleSubmit_req]
    simp [h, hgen]
  · rw [handleSubmit_nonempty now now2 apiKey net s h]
    simp [resolvedReply, hkey]

/-- Witness for C5: a concrete submission with the key undefined. -/
theorem missing_key_soft_failure_witness :
    generateAIResponse none (NetOutcome.success "unreached") (jsTrim sampleState.input)
      = (Except.ok noKeyApology, none) ∧
    (handleSubmit 100 200 none (NetOutcome.success "unreached") sampleState).2.2 = none ∧
    (handleSubmit 100 200 none (NetOutcome.success "unreached") sampleState).1.messages
      = sampleState.messages
        ++ [{ id := toString 100, type := Role.user,
              content := jsTrim sampleState.input, timestamp := 100 },
            { id := toString (200 + 1), type := Role.ai,
              content := noKeyApology, timestamp := 200 }] :=
  missing_key_soft_failure 100 200 none (NetOutcome.success "unreached") sampleState
    (by decide) (by decide)

/-- The request component of the completion client: none when the key is
missing, otherwise the fixed Groq request. -/
theorem gen_snd_eq (apiKey : Option String) (net : NetOutcome) (userInput : String) :
    (generateAIResponse apiKey net userInput).2
      = if keyMissing apiKey then none
        else some (mkGroqRequest (apiKey.getD "") userInput) := by
  unfold generateAIResponse
  cases hk : keyMissing apiKey
  · simp
    cases htb : tryFetchBody net <;> simp
  · simp

/-- C6: speakText is a no-op (no call on the platform) when speech is
disabled or the platform lacks the speech-synthesis capability; otherwise
it first cancels any in-flight utterance and then starts exactly one new
utterance with rate 0.9, pitch 1 and volume 0.8. -/
theorem speakText_spec (speechEnabled hasSynth : Bool) (text : String) :
    (speechEnabled = false ∨ hasSynth = false →
      speakText speechEnabled hasSynth text = []) ∧
    (speechEnabled = true → hasSynth = true →
      speakText speechEnabled hasSynth text
        = [SpeechAction.cancel,
            SpeechAction.speak { text := text, rate := 9/10, pitch := 1, volume := 8/10 }]) := by
  constructor
  · rintro (h | h) <;> simp [speakText, h]
  · intro h1 h2
    simp [speakText, h1, h2]

/-- Witness for C6: one disabled call and one enabled call. -/
theorem speakText_spec_witness :
    speakText false true "hello" = [] ∧
    speakText true true "hello"
      = [SpeechAction.cancel,
          SpeechAction.speak { text := "hello", rate := 9/10, pitch := 1, volume := 8/10 }] :=
  ⟨(speakText_spec false true "hello").1 (Or.inl rfl),
    (speakText_spec true true "hello").2 rfl rfl⟩

/-- C7: every non-empty submission enters the awaiting state synchronously
and has left it by the end of the round trip; the resolution phase resets
`isLoading` on every path, the rejection path included. -/
theorem awaiting_always_released (now now2 : Nat) (apiKey : Option String)
    (net : NetOutcome) (s : SessionState) (h : ¬ jsTrim s.input = "") :
    (submitSync now s).1.isLoading = true ∧
    (handleSubmit now now2 apiKey net s).1.isLoading = false ∧
    (∀ (result : Except String String) (t : SessionState),
      (resolveReply now2 result t).1.isLoading = false) := by
  refine ⟨by simp [submitSync, h], ?_, ?_⟩
  · rw [handleSubmit_nonempty now now2 apiKey net s h]
  · intro result t
    cases result <;> simp [resolveReply]

/-- Witness for C7: a concrete non-empty submission. -/
theorem awaiting_always_released_witness :
    (submitSync 100 sampleState).1.isLoading = true ∧
    (handleSubmit 100 200 (some "key") (NetOutcome.success "Hi there!") sampleState).1.isLoading
      = false ∧
    (∀ (result : Except String String) (t : SessionState),
      (resolveReply 200 result t).1.isLoading = false) :=
  awaiting_always_released 100 200 (some "key") (NetOutcome.success "Hi there!")
    sampleState (by decide)

/-- C8: the conversation store is append-only: each phase of the submission
handler either leaves the message sequence unchanged or appends exactly one
message at the end, and every component operation extends the previous
conversation such that it stays a prefix of the new one, so message order
is insertion order. -/
theorem conversation_append_only :
    (∀ (now : Nat) (s : SessionState),
      (submitSync now s).1.messages = s.messages ∨
      ∃ m, (submitSync now s).1.messages = s.messages ++ [m]) ∧
    (∀ (now2 : Nat) (result : Except String String) (s : SessionState),
      (resolveReply now2 result s).1.messages = s.messages ∨
      ∃ m, (resolveReply now2 result s).1.messages = s.messages ++ [m]) ∧
    (∀ (op : ComponentOp) (s : SessionState),
      ∃ tail, (applyOp op s).messages = s.messages ++ tail) := by
  refine ⟨?_, ?_, ?_⟩
  · intro now s
    by_cases h : jsTrim s.input = ""
    · left
      simp [submitSync, h]
    · right
      exact ⟨{ id := toString now, type := Role.user,
               content := jsTrim s.input, timestamp := now },
             by simp [submitSync, h]⟩
  · intro now2 result s
    cases result with
    | error e =>
        left
        simp [resolveReply]
    | ok a =>
        right
        exact ⟨{ id := toString (now2 + 1), type := Role.ai,
                 content := a, timestamp := now2 },
               by simp [resolveReply]⟩
  · intro op s
    cases op with
    | submit now now2 apiKey net =>
        by_cases h : jsTrim s.input = ""
        · refine ⟨[], ?_⟩
          show (handleSubmit now now2 apiKey net s).1.messages = s.messages ++ []
          rw [handleSubmit_empty now now2 apiKey net s h]
          simp
        · refine ⟨[{ id := toString now, type := Role.user,
                     content := jsTrim s.input, timestamp := now },
                   { id := toString (now2 + 1), type := Role.ai,
                     content := resolvedReply apiKey net, timestamp := now2 }], ?_⟩
          show (handleSubmit now now2 apiKey net s).1.messages = _
          rw [handleSubmit_nonempty now now2 apiKey net s h]
    | typeInput t => exact ⟨[], by simp [applyOp]⟩
    | toggleSpeech => exact ⟨[], by simp [applyOp]⟩
    | stopSpeaking => exact ⟨[], by simp [applyOp]⟩
    | timerClearError => exact ⟨[], by simp [applyOp]⟩
    | speechStarted => exact ⟨[], by simp [applyOp]⟩
    | speechStopped => exact ⟨[], by simp [applyOp]⟩

/-- C9: every request the completion client issues carries the prompt as
the sole conversational turn, the fixed model, a fixed maximum output
length, a fixed temperature and non-streaming mode; and the request issued
by a submission depends only on the submitted input, not on the rest of
the session state, the conversation store included. -/
theorem request_shape_fixed :
    (∀ (apiKey : Option String) (net : NetOutcome) (userInput : String) (req : ChatRequest),
      (generateAIResponse apiKey net userInput).2 = some req →
      req.url = "https://api.groq.com/openai/v1/chat/completions" ∧
      req.model = "gemma2-9b-it" ∧
      req.messages = [("user", userInput)] ∧
      req.max_tokens = 500 ∧
      req.temperature = 7/10 ∧
      req.stream = false) ∧
    (∀ (now now2 : Nat) (apiKey : Option String) (net : NetOutcome) (s t : SessionState),
      s.input = t.input →
      (handleSubmit now now2 apiKey net s).2.2
        = (handleSubmit now now2 apiKey net t).2.2) := by
  constructor
  · intro apiKey net userInput req hreq
    rw [gen_snd_eq] at hreq
    cases hk : keyMissing apiKey
    · rw [hk] at hreq
      simp at hreq
      subst hreq
      simp [mkGroqRequest]
    · rw [hk] at hreq
      simp at hreq
  · intro now now2 apiKey net s t hin
    rw [handleSubmit_req, handleSubmit_req, hin]

/-- Witness for C9: the concrete request of a concrete submission. -/
theorem request_shape_fixed_witness :
    (mkGroqRequest "key" "hi").url = "https://api.groq.com/openai/v1/chat/completions" ∧
    (mkGroqRequest "key" "hi").model = "gemma2-9b-it" ∧
    (mkGroqRequest "key" "hi").messages = [("user", "hi")] ∧
    (mkGroqRequest "key" "hi").max_tokens = 500 ∧
    (mkGroqRequest "key" "hi").temperature = 7/10 ∧
    (mkGroqRequest "key" "hi").stream = false :=
  request_shape_fixed.1 (some "key") (NetOutcome.success "ok") "hi"
    (mkGroqRequest "key" "hi") rfl

/-- C10: the defensive catch branch of handleSubmit is unreachable: no
submission, whatever the input, the key and the network outcome, ever sets
the hard-failure banner text or schedules its 5000 ms clearing timer,
because the completion client resolves on every path. -/
theorem hard_failure_branch_unreachable (now now2 : Nat) (apiKey : Option String)
    (net : NetOutcome) (s : SessionState) :
    (handleSubmit now now2 apiKey net s).1.error ≠ hardFailureError ∧
    Scheduled.clearError 5000 ∉ (handleSubmit now now2 apiKey net s).2.1 := by
  by_cases h : jsTrim s.input = ""
  · rw [handleSubmit_empty now now2 apiKey net s h]
    constructor
    · show emptyInputError ≠ hardFailureError
      decide
    · show Scheduled.clearError 5000 ∉ [Scheduled.clearError 3000]
      decide
  · rw [handleSubmit_nonempty now now2 apiKey net s h]
    constructor
    · show ("" : String) ≠ hardFailureError
      decide
    · by_cases hs : s.speechEnabled = true <;> simp [hs]

/-- Witness for C10: a concrete submission during a network failure still
never reaches the catch branch. -/
theorem hard_failure_branch_unreachable_witness :
    (handleSubmit 1 2 (some "key") (NetOutcome.netError "down") sampleState).1.error
      ≠ hardFailureError ∧
    Scheduled.clearError 5000
      ∉ (handleSubmit 1 2 (some "key") (NetOutcome.netError "down") sampleState).2.1 :=
  hard_failure_branch_unreachable 1 2 (some "key") (NetOutcome.netError "down") sampleState

end VoiceGenie
